import Mathlib

/-!
Verification of the flight-schedule acquisition pipeline of
`app/services/flight_api_client.py` (repository `flights-by-country`),
together with the airport-code validation of `app/main.py`.

JSON values flowing through the pipeline are modelled by `PyVal`; Python
exceptions raised during processing are modelled by `Except PyErr`.
Python `dict.get` is modelled by `pyGetD`/`pyGet` (raising `attributeError`
on a non-dict receiver, exactly as Python raises `AttributeError`), and
Python truthiness by `truthy`.
-/

/-- Model of a Python/JSON value as it occurs in the provider payloads:
`None`, booleans, integers, strings, lists and string-keyed dicts
(dicts as association lists, first binding wins on lookup). -/
inductive PyVal where
  | none
  | bool (b : Bool)
  | int (n : Int)
  | str (s : String)
  | list (xs : List PyVal)
  | dict (kvs : List (String × PyVal))

/-- Model of the Python exceptions the pipeline can raise while processing
a decoded payload. -/
inductive PyErr where
  | attributeError
  | typeError
  | valueError
deriving DecidableEq

/-- Python truthiness (`bool(v)`) for the modelled values: `None`, `False`,
`0`, `""`, `[]` and `{}` are falsy, everything else is truthy. -/
def truthy : PyVal → Bool
  | .none => false
  | .bool b => b
  | .int n => decide (n ≠ 0)
  | .str s => decide (s ≠ "")
  | .list xs => !xs.isEmpty
  | .dict kvs => !kvs.isEmpty

/-- Python `v.get(k, default)`: on a dict, the stored value when the key is
present (even if that value is `None`), the default otherwise; on any
non-dict receiver it raises `AttributeError`. -/
def pyGetD (v : PyVal) (k : String) (default : PyVal) : Except PyErr PyVal :=
  match v with
  | .dict kvs =>
    match kvs.lookup k with
    | some x => .ok x
    | _ => .ok default
  | _ => .error .attributeError

/-- Python `v.get(k)` (default `None`). -/
def pyGet (v : PyVal) (k : String) : Except PyErr PyVal :=
  pyGetD v k .none

/-- Python `len(v)`: defined on strings, lists and dicts, a `TypeError`
otherwise. -/
def pyLen : PyVal → Except PyErr Nat
  | .str s => .ok s.length
  | .list xs => .ok xs.length
  | .dict kvs => .ok kvs.length
  | _ => .error .typeError

/-- Python iteration `for x in v`: the elements of a list, the characters of
a string, the keys of a dict; a `TypeError` on anything else. -/
def pyIter : PyVal → Except PyErr (List PyVal)
  | .list xs => .ok xs
  | .str s => .ok (s.toList.map (fun c => .str c.toString))
  | .dict kvs => .ok (kvs.map (fun kv => .str kv.1))
  | _ => .error .typeError

/-- Python `k in v` for a string `k`: key membership on a dict, element
equality on a list, substring test on a string, `TypeError` otherwise. -/
def pyContains (v : PyVal) (k : String) : Except PyErr Bool :=
  match v with
  | .dict kvs => .ok (kvs.any (fun kv => kv.1 == k))
  | .list xs => .ok (xs.any (fun x => match x with | .str s => s == k | _ => false))
  | .str s => .ok (decide (k.toList <:+: s.toList))
  | _ => .error .typeError

/-- Two-digit zero padding, as produced by `strftime` for months, days,
hours, minutes and seconds. -/
def pad2 (n : Nat) : String :=
  if n < 10 then "0" ++ toString n else toString n

/-- Four-digit zero padding, as produced by `strftime("%Y")` for the years
1 to 9999 handled by `datetime`. -/
def pad4 (n : Nat) : String :=
  if n < 10 then "000" ++ toString n
  else if n < 100 then "00" ++ toString n
  else if n < 1000 then "0" ++ toString n
  else toString n

/-- Proleptic-Gregorian civil date from a count of days since 1970-01-01
(the calendar `datetime` uses), returned as (year, month, day). -/
def civilFromDays (z0 : Int) : Int × Nat × Nat :=
  let z : Int := z0 + 719468
  let era : Int := Int.fdiv z 146097
  let doe : Nat := (z - era * 146097).toNat
  let yoe : Nat := (doe - doe / 1460 + doe / 36524 - doe / 146096) / 365
  let y : Int := (yoe : Int) + era * 400
  let doy : Nat := doe - (365 * yoe + yoe / 4 - yoe / 100)
  let mp : Nat := (5 * doy + 2) / 153
  let d : Nat := doy - (153 * mp + 2) / 5 + 1
  let m : Nat := if mp < 10 then mp + 3 else mp - 9
  (y + (if m ≤ 2 then 1 else 0), m, d)

/-- The lowest UNIX timestamp `datetime.fromtimestamp` accepts
(0001-01-01 00:00:00 UTC). -/
def MIN_TS : Int := -62135596800

/-- The highest UNIX timestamp `datetime.fromtimestamp` accepts
(9999-12-31 23:59:59 UTC). -/
def MAX_TS : Int := 253402300799

/-- `datetime.fromtimestamp(n, tz=timezone.utc).strftime('%Y-%m-%d %H:%M:%S %Z')`
for a timestamp in the representable range. -/
def formatUtcTimestamp (n : Int) : String :=
  let days : Int := Int.fdiv n 86400
  let secs : Nat := (n - days * 86400).toNat
  let ymd := civilFromDays days
  pad4 ymd.1.toNat ++ "-" ++ pad2 ymd.2.1 ++ "-" ++ pad2 ymd.2.2 ++ " " ++
    pad2 (secs / 3600) ++ ":" ++ pad2 (secs % 3600 / 60) ++ ":" ++ pad2 (secs % 60) ++ " UTC"

/-- `convert_timestamp` of `flight_api_client.py`:
`datetime.fromtimestamp(ts, tz=timezone.utc).strftime(...) if ts else None`.
Truthiness is tested first, so `None`, `0`, `False` and empty containers
yield `None`; a truthy integer in the `datetime` range is formatted
(a truthy `True` formats the epoch second 1, as Python's bool-as-int does);
a truthy non-integer raises `TypeError`, an out-of-range integer raises
(modelled as `valueError`). -/
def convert_timestamp (ts : PyVal) : Except PyErr PyVal :=
  if truthy ts then
    match ts with
    | .int n => if MIN_TS ≤ n ∧ n ≤ MAX_TS then .ok (.str (formatUtcTimestamp n)) else .error .valueError
    | .bool _ => .ok (.str (formatUtcTimestamp 1))
    | _ => .error .typeError
  else
    .ok .none

/-- One iteration of the loop body of `simplify_flight_data` for a single raw
flight record: every Python statement of the `try` block, in evaluation
order, as an explicit chain of binds in the `Except PyErr` monad (any raise
short-circuits the chain).  The successful result is the flat
record dict, with its keys in the insertion order the Python code
produces. -/
def simplifyRecord (flight : PyVal) (flight_type : String) : Except PyErr PyVal :=
  pyGetD flight "identification" (.dict []) >>= fun identification =>
  pyGetD flight "airline" (.dict []) >>= fun airline_info =>
  pyGetD flight "status" (.dict []) >>= fun status_info =>
  pyGetD flight "aircraft" (.dict []) >>= fun aircraft_info =>
  pyGetD flight "airport" (.dict []) >>= fun airport_info =>
  pyGetD flight "time" (.dict []) >>= fun time_info =>
  pyGetD identification "number" (.dict []) >>= fun number =>
  pyGet number "default" >>= fun flightNumber =>
  (if truthy airline_info then pyGet airline_info "name" else pure .none) >>= fun airline =>
  pyGet status_info "text" >>= fun status =>
  pyGetD aircraft_info "model" (.dict []) >>= fun model =>
  pyGet model "text" >>= fun aircraftModel =>
  if flight_type = "arrival" then
    pyGetD airport_info "origin" (.dict []) >>= fun origin =>
    pyGetD origin "position" (.dict []) >>= fun origin_position =>
    (if truthy origin_position then pyGetD origin_position "region" (.dict [])
      else pure (.dict [])) >>= fun origin_region =>
    (if truthy origin_position then pyGetD origin_position "country" (.dict [])
      else pure (.dict [])) >>= fun origin_country =>
    pyGet origin "name" >>= fun originAirport =>
    (if truthy origin_region then pyGet origin_region "city" else pure .none) >>= fun originCity =>
    (if truthy origin_country then pyGet origin_country "name" else pure .none) >>= fun originCountry =>
    pyGetD time_info "scheduled" (.dict []) >>= fun scheduled =>
    pyGet scheduled "arrival" >>= fun arr =>
    convert_timestamp arr >>= fun scheduledTime =>
    pure (.dict [("type", .str flight_type), ("flightNumber", flightNumber),
      ("airline", airline), ("status", status), ("aircraftModel", aircraftModel),
      ("originAirport", originAirport), ("originCity", originCity),
      ("originCountry", originCountry), ("scheduledTime", scheduledTime)])
  else
    pyGetD airport_info "destination" (.dict []) >>= fun destination =>
    pyGetD destination "position" (.dict []) >>= fun destination_position =>
    (if truthy destination_position then pyGetD destination_position "region" (.dict [])
      else pure (.dict [])) >>= fun destination_region =>
    (if truthy destination_position then pyGetD destination_position "country" (.dict [])
      else pure (.dict [])) >>= fun destination_country =>
    pyGet destination "name" >>= fun destinationAirport =>
    (if truthy destination_region then pyGet destination_region "city" else pure .none) >>= fun destinationCity =>
    (if truthy destination_country then pyGet destination_country "name" else pure .none) >>= fun destinationCountry =>
    pyGetD time_info "scheduled" (.dict []) >>= fun scheduled =>
    pyGet scheduled "departure" >>= fun dep =>
    convert_timestamp dep >>= fun scheduledTime =>
    pure (.dict [("type", .str flight_type), ("flightNumber", flightNumber),
      ("airline", airline), ("status", status), ("aircraftModel", aircraftModel),
      ("destinationAirport", destinationAirport), ("destinationCity", destinationCity),
      ("destinationCountry", destinationCountry), ("scheduledTime", scheduledTime)])

/-- `simplify_flight_data` of `flight_api_client.py`: the loop over the raw
flight records; a record whose processing raises is skipped (`except ...:
continue`), a record whose processing succeeds is appended. -/
def simplify_flight_data (flights : List PyVal) (flight_type : String) : List PyVal :=
  match flights with
  | [] => []
  | f :: rest =>
    match simplifyRecord f flight_type with
    | .ok r => r :: simplify_flight_data rest flight_type
    | .error _ => simplify_flight_data rest flight_type

/-- The all-null normalized record `simplifyRecord` produces for a raw record
containing none of the accessed keys. -/
def nullRecord (flight_type : String) : PyVal :=
  if flight_type = "arrival" then
    .dict [("type", .str flight_type), ("flightNumber", .none), ("airline", .none),
      ("status", .none), ("aircraftModel", .none), ("originAirport", .none),
      ("originCity", .none), ("originCountry", .none), ("scheduledTime", .none)]
  else
    .dict [("type", .str flight_type), ("flightNumber", .none), ("airline", .none),
      ("status", .none), ("aircraftModel", .none), ("destinationAirport", .none),
      ("destinationCity", .none), ("destinationCountry", .none), ("scheduledTime", .none)]

/-- The outcome of the single upstream HTTP round trip made by
`fetch_schedule`, abstracting the network boundary: the request can fail at
the transport level (`aiohttp.ClientError`, including a timeout),
`raise_for_status` can raise on a non-success status, `response.json()` can
fail to decode, or a JSON body is decoded. -/
inductive FetchOutcome where
  | networkError
  | httpError (status : Nat)
  | decodeError
  | body (data : PyVal)

/-- `"arrivals" if flight_type == "arrival" else "departures"` of
`fetch_schedule`. -/
def api_mode (flight_type : String) : String :=
  if flight_type = "arrival" then "arrivals" else "departures"

/-- The `for item in schedule_data` loop of `fetch_schedule`:
`if flight := item.get("flight"): flights_list.append(flight)` — the walrus
assignment keeps only truthy `flight` values, and a non-dict item raises. -/
def extractFlights : List PyVal → Except PyErr (List PyVal)
  | [] => .ok []
  | item :: rest =>
    (pyGet item "flight").bind fun f =>
      (extractFlights rest).map fun fs => if truthy f then f :: fs else fs

/-- The body-processing part of `fetch_schedule`'s `try` block, after a JSON
body has been decoded: the provider-error check (`"error" in data` returns
`[]`), the nested envelope extraction
`data.get("airport", {}).get("pluginData", {}).get("schedule", {}).get(api_mode, {}).get("data", [])`,
the `len` call of the diagnostic print, the flight-extraction loop, and the
final `simplify_flight_data` call.  Any raise is propagated to the caller's
`except` handlers. -/
def processBody (data : PyVal) (flight_type : String) : Except PyErr (List PyVal) := do
  let hasErr ← pyContains data "error"
  if hasErr then
    pure []
  else
    let airport ← pyGetD data "airport" (.dict [])
    let plugin_data ← pyGetD airport "pluginData" (.dict [])
    let sched ← pyGetD plugin_data "schedule" (.dict [])
    let modeData ← pyGetD sched (api_mode flight_type) (.dict [])
    let schedule_data ← pyGetD modeData "data" (.list [])
    let _ ← pyLen schedule_data
    let items ← pyIter schedule_data
    let flights_list ← extractFlights items
    pure (simplify_flight_data flights_list flight_type)

/-- `fetch_schedule` of `flight_api_client.py` as a function of the upstream
outcome.  `res` starts as `[]`; every exception path (transport error,
`raise_for_status`, decode failure, or any raise while processing the body)
is caught by the `except` handlers and the `finally: return res` returns the
empty list; the provider-error early `return []` is likewise `[]`. -/
def fetch_schedule (airport_code : String) (flight_type : String)
    (outcome : FetchOutcome) : List PyVal :=
  match outcome with
  | .networkError => []
  | .httpError _ => []
  | .decodeError => []
  | .body data =>
    match processBody data flight_type with
    | .ok res => res
    | .error _ => []

/-- One element of the `results` list produced by
`asyncio.gather(*tasks, return_exceptions=True)` in `get_flight_data`:
either a captured exception or a direction's fetched list. -/
inductive DirResult where
  | exc
  | ok (flights : List PyVal)

/-- The merge loop of `get_flight_data`: exceptions are logged and skipped,
lists are appended with `all_flights.extend(result)` in gather order. -/
def gather_merge (results : List DirResult) : List PyVal :=
  results.foldl (fun acc r => match r with | .exc => acc | .ok fs => acc ++ fs) []

/-- The body of `get_flight_data` applied to the two gathered direction
results, arrival first then departure (the order of `tasks`). -/
def get_flight_data_body (arrival departure : DirResult) : List PyVal :=
  gather_merge [arrival, departure]

/-- The cache-miss computation of `get_flight_data` as a function of the two
upstream outcomes: both directions are fetched (neither raises, thanks to
`fetch_schedule`'s `finally: return`), then merged. -/
def get_flight_data_miss (airport_code : String)
    (arrivalOutcome departureOutcome : FetchOutcome) : List PyVal :=
  get_flight_data_body (.ok (fetch_schedule airport_code "arrival" arrivalOutcome))
    (.ok (fetch_schedule airport_code "departure" departureOutcome))

/-- A provider envelope
`{airport: {pluginData: {schedule: {<mode>: {data: [{flight: f} for f in rawFlights]}}}}}`
carrying the given raw per-flight records for one direction. -/
def mkEnvelope (mode : String) (rawFlights : List PyVal) : PyVal :=
  .dict [("airport", .dict [("pluginData", .dict [("schedule",
    .dict [(mode, .dict [("data",
      .list (rawFlights.map (fun f => .dict [("flight", f)])))])])])])]

/-- `valid_airports` of `app/main.py`. -/
def valid_airports : List String := ["DXB", "LHR", "CDG", "SIN", "HKG", "AMS"]

/-- The airport-code validation of `ask_question` in `app/main.py`:
a request is accepted iff its airport code is in the whitelist. -/
def ask_accepts (airport : String) : Bool :=
  valid_airports.contains airport

/-- The key under which `get_flight_data`'s result is cached for a request:
`ask_question` calls `get_flight_data(request.airport)` with the code exactly
as received, and the memoizing decorator keys on that argument. -/
def cache_key (airport : String) : String := airport

/-- Uppercasing of a string, character by character (the uppercase IATA form
of an airport code). -/
def upperIata (s : String) : String := ⟨s.data.map Char.toUpper⟩

/-- TTL of the `get_flight_data` cache, seconds (`ttl=600`). -/
def CACHE_TTL : Nat := 600

/-- Capacity of the `get_flight_data` cache (`maxsize=12`). -/
def CACHE_MAXSIZE : Nat := 12

/-- Modelled from the spec: the state of the TTL-and-LRU memoizing cache
wrapping `get_flight_data` (the `alru_cache(maxsize=12, ttl=600)` decorator;
its implementation is a library and is not under `src/`).  `entries` holds
`(key, (value, creationTime))` most recently used first; `fetchCount` counts
completed upstream aggregation rounds. -/
structure CacheState where
  entries : List (String × (List PyVal × Nat))
  fetchCount : Nat

/-- The empty cache at process start. -/
def emptyCache : CacheState := ⟨[], 0⟩

/-- Modelled from the spec: whether a lookup at time `now` is served from the
stored entry — only an entry younger than the TTL ("an entry older than the
TTL is never returned as fresh"). -/
def cacheHit (s : CacheState) (now : Nat) (key : String) : Option (List PyVal) :=
  match s.entries.lookup key with
  | some (v, created) => if now < created + CACHE_TTL then some v else Option.none
  | _ => Option.none

/-- Modelled from the spec: one `get_flight_data(key)` call at time `now`.
A fresh entry is returned as is (promoted to most recently used, no upstream
fetch); otherwise one upstream aggregation round runs, producing `fetched`,
which is stored with creation time `now`, evicting the least recently used
entry beyond capacity. -/
def cacheGet (s : CacheState) (now : Nat) (key : String) (fetched : List PyVal) :
    List PyVal × CacheState :=
  match s.entries.lookup key with
  | some (v, created) =>
    if now < created + CACHE_TTL then
      (v, ⟨(key, (v, created)) :: s.entries.filter (fun e => !(e.1 == key)), s.fetchCount⟩)
    else
      (fetched, ⟨((key, (fetched, now)) :: s.entries.filter (fun e => !(e.1 == key))).take CACHE_MAXSIZE,
        s.fetchCount + 1⟩)
  | _ =>
    (fetched, ⟨((key, (fetched, now)) :: s.entries.filter (fun e => !(e.1 == key))).take CACHE_MAXSIZE,
      s.fetchCount + 1⟩)

/-- Modelled from the spec: the single-flight view of the cache — the
decorator stores the in-progress task under its key as soon as the first
caller arrives, so the key is marked in-flight until the task completes.
`inflight` holds keys with an in-progress aggregation, `done` holds
completed entries' creation times, `fetchCount` counts launched upstream
aggregation rounds. -/
structure SFState where
  inflight : List String
  done : List (String × Nat)
  fetchCount : Nat

/-- Modelled from the spec: a caller requests `key` at time `now`.  If an
aggregation for `key` is already in flight, the caller joins it (no new
fetch); if a fresh completed entry exists, it is served (no new fetch);
otherwise a single new aggregation is launched and `key` becomes
in-flight. -/
def sfRequest (s : SFState) (now : Nat) (key : String) : SFState :=
  if s.inflight.contains key then s
  else
    match s.done.lookup key with
    | some created =>
      if now < created + CACHE_TTL then s
      else ⟨key :: s.inflight, s.done.filter (fun e => !(e.1 == key)), s.fetchCount + 1⟩
    | _ => ⟨key :: s.inflight, s.done, s.fetchCount + 1⟩

/-- Modelled from the spec: the in-flight aggregation for `key` completes at
time `now`, its result becoming the stored entry. -/
def sfComplete (s : SFState) (now : Nat) (key : String) : SFState :=
  ⟨s.inflight.filter (fun k => !(k == key)),
    (key, now) :: s.done.filter (fun e => !(e.1 == key)), s.fetchCount⟩

/-- Whether a value is a dict. -/
def isDictVal : PyVal → Bool
  | .dict _ => true
  | _ => false

/-- The value Python's `kvs.get(k, {})` yields: the stored value when the key
is present, the empty dict otherwise. -/
def lookupD (kvs : List (String × PyVal)) (k : String) : PyVal :=
  (kvs.lookup k).getD (.dict [])

/-- A value on which the guarded access pattern
`v.get(field) if v else None` cannot raise: a dict, or anything falsy. -/
def dictOrFalsy (v : PyVal) : Bool :=
  match v with
  | .dict _ => true
  | _ => !truthy v

/-- A value `convert_timestamp` accepts without raising: anything falsy, a
boolean, or an integer in the range `datetime.fromtimestamp` supports. -/
def tsOk (v : PyVal) : Bool :=
  !truthy v ||
    (match v with
     | .int n => decide (MIN_TS ≤ n ∧ n ≤ MAX_TS)
     | .bool _ => true
     | _ => false)

/-- Well-shapedness of the `origin`/`destination` sub-object: its `position`
field, when present, is a dict or falsy, and inside a `position` dict the
`region` and `country` fields, when present, are dicts or falsy — exactly
the shapes the guarded accesses of `simplify_flight_data` tolerate. -/
def posOk (okvs : List (String × PyVal)) : Bool :=
  match okvs.lookup "position" with
  | some (.dict p) => dictOrFalsy (lookupD p "region") && dictOrFalsy (lookupD p "country")
  | some v => !truthy v
  | _ => true

/-- Well-shapedness of a raw flight record for the given direction: the
record is a dict and every nested value that `simplify_flight_data`'s
`try` block accesses has a shape its access pattern tolerates (absent keys
at any depth are always tolerated).  This carves out exactly the inputs on
which the per-record normalization cannot raise. -/
def wellShaped (flight : PyVal) (flight_type : String) : Bool :=
  match flight with
  | .dict kvs =>
    (match lookupD kvs "identification" with
     | .dict idn => isDictVal (lookupD idn "number")
     | _ => false)
    && dictOrFalsy (lookupD kvs "airline")
    && isDictVal (lookupD kvs "status")
    && (match lookupD kvs "aircraft" with
        | .dict ac => isDictVal (lookupD ac "model")
        | _ => false)
    && (match lookupD kvs "airport" with
        | .dict ap =>
          (match lookupD ap (if flight_type = "arrival" then "origin" else "destination") with
           | .dict o => posOk o
           | _ => false)
        | _ => false)
    && (match lookupD kvs "time" with
        | .dict ti =>
          (match lookupD ti "scheduled" with
           | .dict sc =>
             tsOk ((sc.lookup (if flight_type = "arrival" then "arrival" else "departure")).getD .none)
           | _ => false)
        | _ => false)
  | _ => false

theorem pyGetD_dict (kvs : List (String × PyVal)) (k : String) :
    pyGetD (.dict kvs) k (.dict []) = .ok (lookupD kvs k) := by
  rw [lookupD]
  cases h : kvs.lookup k <;> simp [pyGetD, h]

theorem pyGet_dict (kvs : List (String × PyVal)) (k : String) :
    pyGet (.dict kvs) k = .ok ((kvs.lookup k).getD .none) := by
  rw [pyGet]
  cases h : kvs.lookup k <;> simp [pyGetD, h]

theorem ok_bind {α β : Type} (a : α) (f : α → Except PyErr β) :
    (Except.ok a >>= f) = f a := rfl

theorem bind_ok_of {α β : Type} {e : Except PyErr α} {f : α → Except PyErr β} {x : α}
    (he : e = .ok x) (hf : ∃ r, f x = .ok r) : ∃ r, (e >>= f) = .ok r := by
  rw [he, ok_bind]
  exact hf

theorem guard_get_ok (v : PyVal) (k : String) (h : dictOrFalsy v = true) :
    ∃ w, (if truthy v then pyGet v k else pure PyVal.none) = Except.ok w := by
  by_cases hv : truthy v = true
  · cases v with
    | dict kvs =>
      refine ⟨(kvs.lookup k).getD .none, ?_⟩
      rw [if_pos hv]
      exact pyGet_dict kvs k
    | none => simp [truthy] at hv
    | bool b => simp [dictOrFalsy, hv] at h
    | int n => simp [dictOrFalsy, hv] at h
    | str s => simp [dictOrFalsy, hv] at h
    | list xs => simp [dictOrFalsy, hv] at h
  · exact ⟨.none, by rw [if_neg hv]; rfl⟩

theorem convert_timestamp_ok (v : PyVal) (h : tsOk v = true) :
    ∃ w, convert_timestamp v = Except.ok w := by
  by_cases hv : truthy v = true
  · unfold tsOk at h
    rw [hv] at h
    simp only [Bool.not_true, Bool.false_or] at h
    cases v with
    | int n =>
      refine ⟨.str (formatUtcTimestamp n), ?_⟩
      have hr := of_decide_eq_true h
      simp [convert_timestamp, hv, hr]
    | bool b =>
      refine ⟨.str (formatUtcTimestamp 1), ?_⟩
      simp [convert_timestamp, hv]
    | none => simp at h
    | str s => simp at h
    | list xs => simp at h
    | dict kvs => simp at h
  · refine ⟨.none, ?_⟩
    simp [convert_timestamp, hv]

/-- C7: timestamp conversion maps an absent (`None`), null, or zero source
timestamp to `None` — never a fabricated 1970-01-01 epoch string — and maps
the nonzero UNIX-seconds integer 1700000000 to the deterministic
UTC-normalized string "2023-11-14 22:13:20 UTC" (the conversion is a pure
function of its input, so the same input always yields the same output). -/
theorem convert_timestamp_spec :
    convert_timestamp PyVal.none = .ok PyVal.none ∧
    convert_timestamp (.int 0) = .ok PyVal.none ∧
    convert_timestamp (.int 1700000000) = .ok (.str "2023-11-14 22:13:20 UTC") :=
  ⟨rfl, rfl, rfl⟩

/-- C1 counterexample: for the raw record {"identification": 5} — an object
with a wrong-typed nested value — the per-record normalization raises
`AttributeError` inside the `try` block, so the record is dropped and the
normalizer produces no FlightRecord for it, refuting the claim that every
input record yields a FlightRecord. -/
theorem normalizer_not_total_cex :
    simplifyRecord (.dict [("identification", .int 5)]) "arrival" = .error .attributeError ∧
    simplify_flight_data [.dict [("identification", .int 5)]] "arrival" = [] :=
  ⟨rfl, rfl⟩

/-- C5: for every airport code and direction, a single-direction fetch
returns the empty list whenever the upstream call fails at the transport
level, yields a non-success HTTP status (so `raise_for_status` raises),
fails to decode, or decodes to a body carrying a provider-reported error
field; no exception escapes the fetcher boundary (`fetch_schedule` is a
total function into lists). -/
theorem fetch_schedule_absorbing :
    ∀ (code flight_type : String),
      fetch_schedule code flight_type .networkError = [] ∧
      (∀ status, fetch_schedule code flight_type (.httpError status) = []) ∧
      fetch_schedule code flight_type .decodeError = [] ∧
      (∀ data : PyVal, pyContains data "error" = .ok true →
        fetch_schedule code flight_type (.body data) = []) := by
  intro code t
  refine ⟨rfl, fun s => rfl, rfl, ?_⟩
  intro data h
  simp [fetch_schedule, processBody, h, ok_bind]
  rfl

/-- Witness for C5 at a concrete provider-error body. -/
theorem fetch_schedule_absorbing_witness :
    pyContains (.dict [("error", .str "No data")]) "error" = .ok true ∧
    fetch_schedule "DXB" "arrival" (.body (.dict [("error", .str "No data")])) = [] :=
  ⟨rfl, (fetch_schedule_absorbing "DXB" "arrival").2.2.2 _ rfl⟩

/-- C8: a record whose processing raises an unexpected structural error is
dropped and processing continues with the remaining records — normalizing
`xs ++ bad :: ys` yields exactly the normalization of `xs` followed by the
normalization of `ys` — and no exception propagates out of the normalizer
(`simplify_flight_data` is a total function into lists). -/
theorem malformed_record_dropped :
    ∀ (xs ys : List PyVal) (bad : PyVal) (flight_type : String) (e : PyErr),
      simplifyRecord bad flight_type = .error e →
      simplify_flight_data (xs ++ bad :: ys) flight_type =
        simplify_flight_data xs flight_type ++ simplify_flight_data ys flight_type := by
  intro xs ys bad t e h
  induction xs with
  | nil => simp [simplify_flight_data, h]
  | cons f rest ih =>
    cases hf : simplifyRecord f t with
    | ok r => simp [simplify_flight_data, hf, ih]
    | error e2 => simp [simplify_flight_data, hf, ih]

/-- Witness for C8: a batch with one wrong-typed record in the middle keeps
both surrounding records. -/
theorem malformed_record_dropped_witness :
    simplifyRecord (.dict [("status", .int 7)]) "arrival" = .error .attributeError ∧
    simplify_flight_data
        [.dict [], .dict [("status", .int 7)], .dict []] "arrival" =
      [nullRecord "arrival", nullRecord "arrival"] := by
  refine ⟨rfl, ?_⟩
  have h := malformed_record_dropped [.dict []] [.dict []]
    (.dict [("status", .int 7)]) "arrival" .attributeError rfl
  rw [show ([PyVal.dict [], PyVal.dict [("status", PyVal.int 7)], PyVal.dict []] =
    [PyVal.dict []] ++ PyVal.dict [("status", PyVal.int 7)] :: [PyVal.dict []]) from rfl, h]
  rfl

/-- C10: the normalizer's output is exactly the `filterMap` of per-record
normalization over its input — each output record comes from a distinct
input record, in input order (records are only dropped, never duplicated,
fabricated or reordered) — and the output list is never longer than the
input list. -/
theorem normalizer_shape :
    ∀ (flights : List PyVal) (flight_type : String),
      simplify_flight_data flights flight_type =
        flights.filterMap (fun f => (simplifyRecord f flight_type).toOption) ∧
      (simplify_flight_data flights flight_type).length ≤ flights.length := by
  intro fs t
  have key : ∀ gs : List PyVal, simplify_flight_data gs t =
      gs.filterMap (fun f => (simplifyRecord f t).toOption) := by
    intro gs
    induction gs with
    | nil => rfl
    | cons f rest ih =>
      cases hf : simplifyRecord f t with
      | ok r => simp [simplify_flight_data, hf, List.filterMap_cons, Except.toOption, ih]
      | error e2 => simp [simplify_flight_data, hf, List.filterMap_cons, Except.toOption, ih]
  refine ⟨key fs, ?_⟩
  rw [key fs]
  exact List.length_filterMap_le _ _

/-- C9: every airport code accepted by `ask_question`'s whitelist is stored
and looked up in the cache under a key equal to the uppercase IATA form of
that code, and any two accepted codes whose uppercase forms agree share one
cache key. -/
theorem cache_key_uppercase :
    ∀ a : String, ask_accepts a = true →
      cache_key a = upperIata a ∧
      ∀ b : String, ask_accepts b = true → upperIata a = upperIata b →
        cache_key a = cache_key b := by
  have up : ∀ a : String, ask_accepts a = true → cache_key a = upperIata a := by
    intro a ha
    have hmem : a ∈ valid_airports := by
      rw [ask_accepts] at ha
      obtain ⟨b, hb, hab⟩ := List.contains_iff_exists_mem_beq.mp ha
      rw [show a = b from eq_of_beq hab]
      exact hb
    fin_cases hmem <;> rfl
  intro a ha
  refine ⟨up a ha, ?_⟩
  intro b hb hab
  calc cache_key a = upperIata a := up a ha
    _ = upperIata b := hab
    _ = cache_key b := (up b hb).symm

/-- Witness for C9 at the accepted code "DXB". -/
theorem cache_key_uppercase_witness :
    ask_accepts "DXB" = true ∧ cache_key "DXB" = upperIata "DXB" :=
  ⟨rfl, (cache_key_uppercase "DXB" rfl).1⟩

theorem lookup_cons_self {β : Type} (k : String) (v : β) (l : List (String × β)) :
    List.lookup k ((k, v) :: l) = some v := by
  simp [List.lookup]

theorem extractFlights_wrap :
    ∀ (raws : List PyVal), (∀ f ∈ raws, truthy f = true) →
      extractFlights (raws.map (fun f => PyVal.dict [("flight", f)])) = .ok raws := by
  intro raws h
  induction raws with
  | nil => rfl
  | cons f rest ih =>
    have hf : truthy f = true := h f (List.mem_cons_self f rest)
    have hrest : ∀ g ∈ rest, truthy g = true := fun g hg => h g (List.mem_cons_of_mem f hg)
    simp only [List.map_cons, extractFlights]
    rw [show pyGet (PyVal.dict [("flight", f)]) "flight" = .ok f from rfl]
    rw [ih hrest]
    simp [Except.bind, Except.map, hf]

theorem processBody_mkEnvelope (flight_type : String) (raws : List PyVal)
    (h : ∀ f ∈ raws, truthy f = true) :
    processBody (mkEnvelope (api_mode flight_type) raws) flight_type =
      .ok (simplify_flight_data raws flight_type) := by
  simp [processBody, mkEnvelope, pyContains, pyGetD, pyGet, pyLen, pyIter,
    List.lookup, ok_bind, extractFlights_wrap raws h]

theorem fetch_mkEnvelope (code flight_type : String) (raws : List PyVal)
    (h : ∀ f ∈ raws, truthy f = true) :
    fetch_schedule code flight_type (.body (mkEnvelope (api_mode flight_type) raws)) =
      simplify_flight_data raws flight_type := by
  simp [fetch_schedule, processBody_mkEnvelope flight_type raws h]

/-- C4: on a cache miss the returned sequence is the concatenation of the
(normalized) arrival fetch results followed by the (normalized) departure
fetch results; in particular, for provider envelopes carrying the arrival
raw list [A1, A2] and the departure raw list [D1], the result is
[norm A1, norm A2, norm D1], each sub-sequence in provider-returned
order. -/
theorem merge_order :
    ∀ code : String,
      (∀ o1 o2 : FetchOutcome,
        get_flight_data_miss code o1 o2 =
          fetch_schedule code "arrival" o1 ++ fetch_schedule code "departure" o2) ∧
      (∀ A1 A2 D1 a1 a2 d1 : PyVal,
        truthy A1 = true → truthy A2 = true → truthy D1 = true →
        simplifyRecord A1 "arrival" = .ok a1 →
        simplifyRecord A2 "arrival" = .ok a2 →
        simplifyRecord D1 "departure" = .ok d1 →
        get_flight_data_miss code (.body (mkEnvelope "arrivals" [A1, A2]))
          (.body (mkEnvelope "departures" [D1])) = [a1, a2, d1]) := by
  intro code
  have hgen : ∀ o1 o2 : FetchOutcome, get_flight_data_miss code o1 o2 =
      fetch_schedule code "arrival" o1 ++ fetch_schedule code "departure" o2 := by
    intro o1 o2
    simp [get_flight_data_miss, get_flight_data_body, gather_merge]
  refine ⟨hgen, ?_⟩
  intro A1 A2 D1 a1 a2 d1 h1 h2 h3 hA1 hA2 hD1
  have harr : ∀ f ∈ [A1, A2], truthy f = true := by
    intro f hf
    simp only [List.mem_cons, List.mem_singleton] at hf
    rcases hf with rfl | rfl | hf
    · exact h1
    · exact h2
    · exact absurd hf (List.not_mem_nil f)
  have hdep : ∀ f ∈ [D1], truthy f = true := by
    intro f hf
    simp only [List.mem_singleton] at hf
    subst hf
    exact h3
  have e1 := fetch_mkEnvelope code "arrival" [A1, A2] harr
  have e2 := fetch_mkEnvelope code "departure" [D1] hdep
  rw [show api_mode "arrival" = "arrivals" from rfl] at e1
  rw [show api_mode "departure" = "departures" from rfl] at e2
  rw [hgen, e1, e2]
  simp [simplify_flight_data, hA1, hA2, hD1]

/-- Witness for C4 at three concrete truthy raw records. -/
theorem merge_order_witness :
    truthy (PyVal.dict [("status", PyVal.dict [])]) = true ∧
    get_flight_data_miss "DXB"
        (.body (mkEnvelope "arrivals"
          [.dict [("status", .dict [])], .dict [("status", .dict [])]]))
        (.body (mkEnvelope "departures" [.dict [("status", .dict [])]])) =
      [nullRecord "arrival", nullRecord "arrival", nullRecord "departure"] :=
  ⟨rfl, (merge_order "DXB").2 _ _ _ _ _ _ rfl rfl rfl rfl rfl rfl⟩

/-- C6: partial failure is non-fatal — if the arrival direction fails
(either as a captured task exception at the gather, or as a transport
failure absorbed inside the fetcher) while the departure envelope carries
the raw record D1, the aggregation returns exactly [norm D1], never an
error. -/
theorem partial_failure :
    ∀ (code : String) (D1 d1 : PyVal), truthy D1 = true →
      simplifyRecord D1 "departure" = .ok d1 →
      get_flight_data_body .exc
        (.ok (fetch_schedule code "departure" (.body (mkEnvelope "departures" [D1])))) = [d1] ∧
      get_flight_data_miss code .networkError (.body (mkEnvelope "departures" [D1])) = [d1] := by
  intro code D1 d1 ht hD1
  have hdep : ∀ f ∈ [D1], truthy f = true := by
    intro f hf
    simp only [List.mem_singleton] at hf
    subst hf
    exact ht
  have e2 := fetch_mkEnvelope code "departure" [D1] hdep
  rw [show api_mode "departure" = "departures" from rfl] at e2
  constructor
  · rw [e2]
    simp [get_flight_data_body, gather_merge, simplify_flight_data, hD1]
  · rw [get_flight_data_miss, e2]
    simp [get_flight_data_body, gather_merge, fetch_schedule, simplify_flight_data, hD1]

/-- Witness for C6 at a concrete truthy departure record. -/
theorem partial_failure_witness :
    truthy (PyVal.dict [("airline", PyVal.dict [])]) = true ∧
    get_flight_data_miss "LHR" .networkError
        (.body (mkEnvelope "departures" [.dict [("airline", .dict [])]])) =
      [nullRecord "departure"] :=
  ⟨rfl, (partial_failure "LHR" (.dict [("airline", .dict [])])
    (nullRecord "departure") rfl rfl).2⟩

theorem take_cons_lookup {β : Type} (k : String) (v : β) (l : List (String × β)) :
    List.lookup k (((k, v) :: l).take CACHE_MAXSIZE) = some v := by
  rw [show CACHE_MAXSIZE = 11 + 1 from rfl, List.take_succ_cons]
  simp [List.lookup]

theorem cacheHit_of_lookup_none (s : CacheState) (now : Nat) (key : String)
    (hl : s.entries.lookup key = Option.none) : cacheHit s now key = Option.none := by
  simp [cacheHit, hl]

theorem cacheGet_miss (s : CacheState) (now : Nat) (key : String) (f : List PyVal)
    (h : cacheHit s now key = Option.none) :
    cacheGet s now key f =
      (f, ⟨((key, (f, now)) :: s.entries.filter (fun e => !(e.1 == key))).take CACHE_MAXSIZE,
        s.fetchCount + 1⟩) := by
  cases hl : s.entries.lookup key with
  | none => simp [cacheGet, hl]
  | some vc =>
    obtain ⟨v, c⟩ := vc
    by_cases hfr : now < c + CACHE_TTL
    · rw [cacheHit, hl] at h
      simp [hfr] at h
    · simp [cacheGet, hl, hfr]

theorem cacheGet_hit (s : CacheState) (now : Nat) (key : String) (f : List PyVal)
    (v : List PyVal) (created : Nat)
    (hl : s.entries.lookup key = some (v, created)) (hfr : now < created + CACHE_TTL) :
    cacheGet s now key f =
      (v, ⟨(key, (v, created)) :: s.entries.filter (fun e => !(e.1 == key)), s.fetchCount⟩) := by
  simp [cacheGet, hl, hfr]

/-- C2: for any airport key, two `get_flight_data` calls within the
600-second TTL window perform at most one upstream fetch between them; when
the first call misses, the second call within the window is served the
stored value with no further fetch; and a stored entry older than the TTL
is never returned as fresh. -/
theorem ttl_cache_spec :
    ∀ (s : CacheState) (now1 now2 : Nat) (key : String) (f1 f2 : List PyVal),
      now1 ≤ now2 → now2 < now1 + CACHE_TTL →
      ((cacheGet (cacheGet s now1 key f1).2 now2 key f2).2.fetchCount ≤ s.fetchCount + 1) ∧
      (s.entries.lookup key = Option.none →
        (cacheGet (cacheGet s now1 key f1).2 now2 key f2).2.fetchCount =
          (cacheGet s now1 key f1).2.fetchCount ∧
        (cacheGet (cacheGet s now1 key f1).2 now2 key f2).1 = (cacheGet s now1 key f1).1) ∧
      (∀ v created, s.entries.lookup key = some (v, created) →
        created + CACHE_TTL ≤ now1 → cacheHit s now1 key = Option.none) := by
  intro s now1 now2 key f1 f2 h12 hwin
  refine ⟨?_, ?_, ?_⟩
  · cases hl : s.entries.lookup key with
    | none =>
      rw [cacheGet_miss s now1 key f1 (cacheHit_of_lookup_none s now1 key hl)]
      rw [cacheGet_hit _ now2 key f2 f1 now1 (take_cons_lookup key (f1, now1) _) hwin]
    | some vc =>
      obtain ⟨v, created⟩ := vc
      by_cases hfr : now1 < created + CACHE_TTL
      · rw [cacheGet_hit s now1 key f1 v created hl hfr]
        by_cases hfr2 : now2 < created + CACHE_TTL
        · rw [cacheGet_hit _ now2 key f2 v created (lookup_cons_self key (v, created) _) hfr2]
          exact Nat.le_succ _
        · rw [cacheGet_miss _ now2 key f2
            (by simp [cacheHit, lookup_cons_self, hfr2])]
      · rw [cacheGet_miss s now1 key f1 (by simp [cacheHit, hl, hfr])]
        rw [cacheGet_hit _ now2 key f2 f1 now1 (take_cons_lookup key (f1, now1) _) hwin]
  · intro hl
    rw [cacheGet_miss s now1 key f1 (cacheHit_of_lookup_none s now1 key hl)]
    rw [cacheGet_hit _ now2 key f2 f1 now1 (take_cons_lookup key (f1, now1) _) hwin]
    exact ⟨rfl, rfl⟩
  · intro v created hsome hstale
    simp [cacheHit, hsome, Nat.not_lt.mpr hstale]

/-- Witness for C2: an empty cache, a miss at time 0 and a second call at
time 599 for the same key. -/
theorem ttl_cache_spec_witness :
    (0 : Nat) ≤ 599 ∧ (599 : Nat) < 0 + CACHE_TTL ∧
    (cacheGet (cacheGet emptyCache 0 "DXB" []).2 599 "DXB" []).2.fetchCount ≤
      emptyCache.fetchCount + 1 :=
  ⟨by decide, by decide,
    (ttl_cache_spec emptyCache 0 599 "DXB" [] [] (by decide) (by decide)).1⟩

theorem sfRequest_joins (s : SFState) (now : Nat) (key : String)
    (h : s.inflight.contains key = true) : sfRequest s now key = s := by
  have hmem : key ∈ s.inflight := by simpa using h
  simp [sfRequest, hmem]

theorem sfRequest_foldl_joins (nows : List Nat) :
    ∀ (s : SFState) (key : String), s.inflight.contains key = true →
      nows.foldl (fun st n => sfRequest st n key) s = s := by
  induction nows with
  | nil => intro s key h; rfl
  | cons n rest ih =>
    intro s key h
    simp only [List.foldl_cons]
    rw [sfRequest_joins s n key h]
    exact ih s key h

theorem sfRequest_launch (s : SFState) (now : Nat) (key : String)
    (hin : s.inflight.contains key = false)
    (hdone : ∀ created, s.done.lookup key = some created → created + CACHE_TTL ≤ now) :
    (sfRequest s now key).fetchCount = s.fetchCount + 1 ∧
    (sfRequest s now key).inflight = key :: s.inflight := by
  have hmem : key ∉ s.inflight := by simpa using hin
  cases hd : s.done.lookup key with
  | none => simp [sfRequest, hmem, hd]
  | some created =>
    have hnl := Nat.not_lt.mpr (hdone created hd)
    simp [sfRequest, hmem, hd, hnl]

/-- C3: at most one in-flight aggregation per airport key — starting from a
state where the key is neither in flight nor freshly cached, a first request
launches exactly one upstream aggregation, and any number of further
concurrent requests for the same key before the aggregation completes join
it: the launched-fetch count stays at one more than before, and exactly one
in-flight aggregation for the key exists. -/
theorem single_flight_spec :
    ∀ (s : SFState) (key : String) (now : Nat) (nows : List Nat),
      s.inflight.contains key = false →
      (∀ created, s.done.lookup key = some created → created + CACHE_TTL ≤ now) →
      (sfRequest s now key).fetchCount = s.fetchCount + 1 ∧
      (nows.foldl (fun st n => sfRequest st n key) (sfRequest s now key)).fetchCount =
        s.fetchCount + 1 ∧
      (nows.foldl (fun st n => sfRequest st n key) (sfRequest s now key)).inflight.count key =
        1 := by
  intro s key now nows hin hdone
  obtain ⟨hc, hi⟩ := sfRequest_launch s now key hin hdone
  have hmem : (sfRequest s now key).inflight.contains key = true := by
    rw [hi]
    simp [List.contains_cons]
  rw [sfRequest_foldl_joins nows (sfRequest s now key) key hmem]
  refine ⟨hc, hc, ?_⟩
  rw [hi, List.count_cons_self]
  have hnot : key ∉ s.inflight := by simpa using hin
  rw [List.count_eq_zero.mpr hnot]

/-- Witness for C3: an idle state, a first request at time 0 and three more
concurrent requests before the aggregation completes. -/
theorem single_flight_spec_witness :
    (⟨[], [], 0⟩ : SFState).inflight.contains "DXB" = false ∧
    (([0, 0, 0] : List Nat).foldl (fun st n => sfRequest st n "DXB")
      (sfRequest ⟨[], [], 0⟩ 0 "DXB")).fetchCount = (⟨[], [], 0⟩ : SFState).fetchCount + 1 :=
  ⟨rfl, (single_flight_spec ⟨[], [], 0⟩ "DXB" 0 [0, 0, 0] rfl
    (fun created hc => by simp at hc)).2.1⟩

theorem dictShape_elim {P : List (String × PyVal) → Bool} {v : PyVal}
    (h : (match v with | PyVal.dict d => P d | _ => false) = true) :
    ∃ d, v = PyVal.dict d ∧ P d = true := by
  cases v with
  | dict d => exact ⟨d, rfl, h⟩
  | none => exact absurd h (by simp)
  | bool b => exact absurd h (by simp)
  | int n => exact absurd h (by simp)
  | str s => exact absurd h (by simp)
  | list xs => exact absurd h (by simp)

theorem isDictVal_elim {v : PyVal} (h : isDictVal v = true) : ∃ d, v = PyVal.dict d := by
  cases v with
  | dict d => exact ⟨d, rfl⟩
  | none => exact absurd h (by simp [isDictVal])
  | bool b => exact absurd h (by simp [isDictVal])
  | int n => exact absurd h (by simp [isDictVal])
  | str s => exact absurd h (by simp [isDictVal])
  | list xs => exact absurd h (by simp [isDictVal])

theorem bind_ok_of_ex {α β : Type} {e : Except PyErr α} {f : α → Except PyErr β}
    (he : ∃ x, e = .ok x) (hf : ∀ x, ∃ r, f x = .ok r) : ∃ r, (e >>= f) = .ok r := by
  obtain ⟨x, hx⟩ := he
  rw [hx, ok_bind]
  exact hf x

theorem bind_ok_of_exP {α β : Type} {e : Except PyErr α} {f : α → Except PyErr β}
    {Q : α → Prop} (he : ∃ x, e = .ok x ∧ Q x) (hf : ∀ x, Q x → ∃ r, f x = .ok r) :
    ∃ r, (e >>= f) = .ok r := by
  obtain ⟨x, hx, hq⟩ := he
  rw [hx, ok_bind]
  exact hf x hq

theorem posOk_elim (okvs : List (String × PyVal)) (k : String)
    (hk : k = "region" ∨ k = "country") (h : posOk okvs = true) :
    (match lookupD okvs "position" with
     | PyVal.dict pkvs => dictOrFalsy (lookupD pkvs k)
     | v => !truthy v) = true := by
  unfold posOk at h
  rw [lookupD]
  cases hp : okvs.lookup "position" with
  | none => rfl
  | some v =>
    rw [hp] at h
    cases v with
    | dict pkvs =>
      simp only [Bool.and_eq_true] at h
      obtain ⟨hr, hc⟩ := h
      rcases hk with rfl | rfl
      · exact hr
      · exact hc
    | none => exact h
    | bool b => exact h
    | int n => exact h
    | str s => exact h
    | list xs => exact h

theorem position_sub_ok (p : PyVal) (k : String)
    (hp : (match p with
           | PyVal.dict pkvs => dictOrFalsy (lookupD pkvs k)
           | v => !truthy v) = true) :
    ∃ r, (if truthy p then pyGetD p k (.dict []) else pure (.dict [])) = Except.ok r ∧
      dictOrFalsy r = true := by
  by_cases hv : truthy p = true
  · cases p with
    | dict pkvs =>
      refine ⟨lookupD pkvs k, ?_, hp⟩
      rw [if_pos hv]
      exact pyGetD_dict pkvs k
    | none =>
      simp only [Bool.not_eq_true'] at hp
      rw [hp] at hv
      exact absurd hv (by simp)
    | bool b =>
      simp only [Bool.not_eq_true'] at hp
      rw [hp] at hv
      exact absurd hv (by simp)
    | int n =>
      simp only [Bool.not_eq_true'] at hp
      rw [hp] at hv
      exact absurd hv (by simp)
    | str s =>
      simp only [Bool.not_eq_true'] at hp
      rw [hp] at hv
      exact absurd hv (by simp)
    | list xs =>
      simp only [Bool.not_eq_true'] at hp
      rw [hp] at hv
      exact absurd hv (by simp)
  · exact ⟨.dict [], by rw [if_neg hv]; rfl, rfl⟩

/-- C1 (amended): the normalizer never raises — batch normalization is a
total function into lists — and for every raw record all of whose accessed
nested values have shapes the access patterns tolerate (in particular for
the empty object and for any object missing every optional key),
per-record normalization returns a FlightRecord with every missing field
represented as null rather than a default or zero value; a record with a
wrong-typed nested value, however, is dropped (it yields no FlightRecord)
rather than normalized. -/
theorem normalizer_total_amended :
    (∀ (flight : PyVal) (flight_type : String), wellShaped flight flight_type = true →
      ∃ r, simplifyRecord flight flight_type = .ok r) ∧
    simplifyRecord (.dict []) "arrival" = .ok (nullRecord "arrival") ∧
    simplifyRecord (.dict []) "departure" = .ok (nullRecord "departure") := by
  refine ⟨?_, rfl, rfl⟩
  intro flight t h
  cases flight with
  | none => exact absurd h (by simp [wellShaped])
  | bool b => exact absurd h (by simp [wellShaped])
  | int n => exact absurd h (by simp [wellShaped])
  | str s => exact absurd h (by simp [wellShaped])
  | list xs => exact absurd h (by simp [wellShaped])
  | dict kvs =>
    simp only [wellShaped, Bool.and_eq_true] at h
    obtain ⟨⟨⟨⟨⟨h1, h2⟩, h3⟩, h4⟩, h5⟩, h6⟩ := h
    obtain ⟨idn, hid, h1'⟩ := dictShape_elim h1
    obtain ⟨numkvs, hnum⟩ := isDictVal_elim h1'
    obtain ⟨stkvs, hst⟩ := isDictVal_elim h3
    obtain ⟨ackvs, hac, h4'⟩ := dictShape_elim h4
    obtain ⟨modkvs, hmod⟩ := isDictVal_elim h4'
    obtain ⟨apkvs, hap, h5'⟩ := dictShape_elim h5
    obtain ⟨tikvs, hti, h6'⟩ := dictShape_elim h6
    obtain ⟨sckvs, hsc, hts⟩ := dictShape_elim h6'
    simp only [simplifyRecord]
    rw [pyGetD_dict kvs "identification", hid]
    simp only [ok_bind]
    rw [pyGetD_dict kvs "airline"]
    simp only [ok_bind]
    rw [pyGetD_dict kvs "status", hst]
    simp only [ok_bind]
    rw [pyGetD_dict kvs "aircraft", hac]
    simp only [ok_bind]
    rw [pyGetD_dict kvs "airport", hap]
    simp only [ok_bind]
    rw [pyGetD_dict kvs "time", hti]
    simp only [ok_bind]
    rw [pyGetD_dict idn "number", hnum]
    simp only [ok_bind]
    rw [pyGet_dict numkvs "default"]
    simp only [ok_bind]
    refine bind_ok_of_ex (guard_get_ok (lookupD kvs "airline") "name" h2) (fun airline => ?_)
    beta_reduce
    rw [pyGet_dict stkvs "text"]
    simp only [ok_bind]
    rw [pyGetD_dict ackvs "model", hmod]
    simp only [ok_bind]
    rw [pyGet_dict modkvs "text"]
    simp only [ok_bind]
    by_cases ht : t = "arrival"
    · rw [if_pos ht] at h5'
      rw [if_pos ht] at hts
      obtain ⟨okvs, ho, hpos⟩ := dictShape_elim h5'
      rw [if_pos ht]
      rw [pyGetD_dict apkvs "origin", ho]
      simp only [ok_bind]
      rw [pyGetD_dict okvs "position"]
      simp only [ok_bind]
      refine bind_ok_of_exP
        (position_sub_ok (lookupD okvs "position") "region" (posOk_elim okvs "region" (Or.inl rfl) hpos))
        (fun origin_region hreg => ?_)
      beta_reduce
      refine bind_ok_of_exP
        (position_sub_ok (lookupD okvs "position") "country" (posOk_elim okvs "country" (Or.inr rfl) hpos))
        (fun origin_country hctry => ?_)
      beta_reduce
      rw [pyGet_dict okvs "name"]
      simp only [ok_bind]
      refine bind_ok_of_ex (guard_get_ok origin_region "city" hreg) (fun originCity => ?_)
      beta_reduce
      refine bind_ok_of_ex (guard_get_ok origin_country "name" hctry) (fun originCountry => ?_)
      beta_reduce
      rw [pyGetD_dict tikvs "scheduled", hsc]
      simp only [ok_bind]
      rw [pyGet_dict sckvs "arrival"]
      simp only [ok_bind]
      refine bind_ok_of_ex (convert_timestamp_ok _ hts) (fun scheduledTime => ?_)
      beta_reduce
      exact ⟨_, rfl⟩
    · rw [if_neg ht] at h5'
      rw [if_neg ht] at hts
      obtain ⟨okvs, ho, hpos⟩ := dictShape_elim h5'
      rw [if_neg ht]
      rw [pyGetD_dict apkvs "destination", ho]
      simp only [ok_bind]
      rw [pyGetD_dict okvs "position"]
      simp only [ok_bind]
      refine bind_ok_of_exP
        (position_sub_ok (lookupD okvs "position") "region" (posOk_elim okvs "region" (Or.inl rfl) hpos))
        (fun destination_region hreg => ?_)
      beta_reduce
      refine bind_ok_of_exP
        (position_sub_ok (lookupD okvs "position") "country" (posOk_elim okvs "country" (Or.inr rfl) hpos))
        (fun destination_country hctry => ?_)
      beta_reduce
      rw [pyGet_dict okvs "name"]
      simp only [ok_bind]
      refine bind_ok_of_ex (guard_get_ok destination_region "city" hreg) (fun destinationCity => ?_)
      beta_reduce
      refine bind_ok_of_ex (guard_get_ok destination_country "name" hctry) (fun destinationCountry => ?_)
      beta_reduce
      rw [pyGetD_dict tikvs "scheduled", hsc]
      simp only [ok_bind]
      rw [pyGet_dict sckvs "departure"]
      simp only [ok_bind]
      refine bind_ok_of_ex (convert_timestamp_ok _ hts) (fun scheduledTime => ?_)
      beta_reduce
      exact ⟨_, rfl⟩

/-- Witness for C1's amended theorem at a record whose only present key is a
falsy wrong-typed airline field (tolerated by the guarded access). -/
theorem normalizer_total_amended_witness :
    wellShaped (.dict [("airline", .int 0)]) "arrival" = true ∧
    ∃ r, simplifyRecord (.dict [("airline", .int 0)]) "arrival" = Except.ok r :=
  ⟨rfl, normalizer_total_amended.1 _ _ rfl⟩
